import Mathlib

/-!
Shallow embedding of `src/index.js` (sweetalert helper functions).

JavaScript values that flow through the helpers (descriptor fields, dialog
outcome fields, element values) are modelled by the inductive type `JSVal`,
with JS truthiness, strict equality (`===`), and template-literal string
coercion made explicit.  Promises are modelled by pure return values:
a function that can reject is embedded as `Except`/a sum-like inductive, and
a runtime `TypeError` (null dereference) is modelled by `Option.none` /
a `crashed` constructor.  The DOM is an explicit partial map from element id
to element, and `element.value` is the element's string value.
-/

/-- Model of a JavaScript value as used by the helpers: `undefined`, `null`,
booleans, (integer) numbers, `NaN`, and strings. -/
inductive JSVal where
  | undef
  | null
  | bool (b : Bool)
  | num (n : Int)
  | nan
  | str (s : String)
  deriving DecidableEq

/-- JS truthiness: `undefined`, `null`, `false`, `0`, `NaN` and `""` are falsy. -/
def truthy : JSVal → Bool
  | JSVal.undef => false
  | JSVal.null => false
  | JSVal.bool b => b
  | JSVal.num n => n != 0
  | JSVal.nan => false
  | JSVal.str s => s != ""

/-- JS `a || b`: the left operand if truthy, otherwise the right operand. -/
def jsOr (a b : JSVal) : JSVal := if truthy a then a else b

/-- JS string coercion as performed by template-literal interpolation:
`undefined` becomes the literal text "undefined", etc. -/
def jsToString : JSVal → String
  | JSVal.undef => "undefined"
  | JSVal.null => "null"
  | JSVal.bool true => "true"
  | JSVal.bool false => "false"
  | JSVal.num n => toString n
  | JSVal.nan => "NaN"
  | JSVal.str s => s

/-- JS strict equality `===`: same type and same value, except that `NaN` is
never strictly equal to anything (including itself). -/
def jsStrictEq : JSVal → JSVal → Bool
  | JSVal.undef, JSVal.undef => true
  | JSVal.null, JSVal.null => true
  | JSVal.bool a, JSVal.bool b => a == b
  | JSVal.num a, JSVal.num b => a == b
  | JSVal.str a, JSVal.str b => a == b
  | _, _ => false

/-- Leading and trailing whitespace removal on a character list. -/
def trimChars (cs : List Char) : List Char :=
  ((cs.dropWhile Char.isWhitespace).reverse.dropWhile Char.isWhitespace).reverse

/-- The value of a nonempty all-digit character list; `none` otherwise. -/
def parseNatDigits (cs : List Char) : Option Nat :=
  if cs.isEmpty then none
  else
    cs.foldl
      (fun acc? c =>
        match acc? with
        | none => none
        | some acc => if c.isDigit then some (acc * 10 + (c.toNat - 48)) else none)
      (some 0)

/-- Decimal integer reading of a trimmed character list, JS-`Number` style:
empty means `0`, an optional sign followed by digits means that integer,
anything else means `NaN`. -/
def jsNumberOfChars : List Char → JSVal
  | [] => JSVal.num 0
  | '-' :: rest =>
      (match parseNatDigits rest with
        | some n => JSVal.num (-(n : Int))
        | none => JSVal.nan)
  | '+' :: rest =>
      (match parseNatDigits rest with
        | some n => JSVal.num (n : Int)
        | none => JSVal.nan)
  | cs =>
      (match parseNatDigits cs with
        | some n => JSVal.num (n : Int)
        | none => JSVal.nan)

/-- Model of the JS builtin `Number` conversion, restricted to the integer
numerics exercised by this code: the empty (or all-blank) string converts
to `0`, a decimal integer string converts to that number, any other string
converts to `NaN`; `null` is `0`, `undefined` is `NaN`, booleans are `0`/`1`. -/
def jsNumber : JSVal → JSVal
  | JSVal.undef => JSVal.nan
  | JSVal.null => JSVal.num 0
  | JSVal.bool b => JSVal.num (if b then 1 else 0)
  | JSVal.num n => JSVal.num n
  | JSVal.nan => JSVal.nan
  | JSVal.str s => jsNumberOfChars (trimChars s.data)

/-- One entry of a `select` descriptor's `options` array. -/
structure SelectOption where
  value : JSVal := JSVal.undef
  name : JSVal := JSVal.undef
  disabled : JSVal := JSVal.undef
  deriving DecidableEq

/-- An input descriptor as accepted by `getPromptedUserInput`; absent
properties are `undefined`.  `formatValue` is `some f` when a function was
supplied (the code's `typeof input.formatValue === 'function'` guard) and
`none` otherwise. -/
structure InputDescriptor where
  id : JSVal := JSVal.undef
  name : JSVal := JSVal.undef
  fieldName : JSVal := JSVal.undef
  type : JSVal := JSVal.undef
  value : JSVal := JSVal.undef
  placeholder : JSVal := JSVal.undef
  label : JSVal := JSVal.undef
  disabled : JSVal := JSVal.undef
  cols : JSVal := JSVal.undef
  rows : JSVal := JSVal.undef
  maxLength : JSVal := JSVal.undef
  options : List SelectOption := []
  formatValue : Option (JSVal → JSVal) := none

/-- A DOM element as read by the validator/aggregator: only its `.value`
string is consumed. -/
structure DomElement where
  value : String
  deriving DecidableEq

/-- A validation rule (`options.validations[]`). -/
structure ValidationRule where
  id : JSVal := JSVal.undef
  name : JSVal := JSVal.undef
  validate : DomElement → JSVal
  messageOnFail : String

/-- The dialog widget's outcome object `{ value?, dismiss? }`. -/
structure SwalResult where
  dismiss : JSVal := JSVal.undef
  value : JSVal := JSVal.undef
  deriving DecidableEq

/-- Minimal state of the global sweetalert2 widget: whether an
overlay/dialog is currently open. -/
structure SwalState where
  openDialog : Bool
  deriving DecidableEq

/-- Model of `sweetalert2.close()`: closes any open dialog (no-op if none). -/
def sweetalert2_close (st : SwalState) : SwalState := { st with openDialog := false }

/-- `hideDismissableLoadingNotice(data)` from `src/index.js`:
`Promise.resolve(sweetalert2.close()).then(() => data)` — closes the
overlay and resolves with the original `data`. -/
def hideDismissableLoadingNotice (st : SwalState) (data : JSVal) : SwalState × JSVal :=
  (sweetalert2_close st, data)

/-- Outcome of `promptAreYouSureBefore`'s `.then` handler: either the boolean
produced under `returnBool`, or the raw dialog result passed through. -/
inductive ConfirmOutcome where
  | boolResult (b : Bool)
  | rawResult (r : Option SwalResult)
  deriving DecidableEq

/-- The `.then(result => ...)` handler of `promptAreYouSureBefore`
(src/index.js lines 88-97): under `returnBool` it returns
`!!(result && !result.dismiss && result.value)`, otherwise the raw result.
The dialog result may be `null`/`undefined`, modelled by `Option`. -/
def promptAreYouSureBeforeHandler (returnBool : Bool) (result : Option SwalResult) :
    ConfirmOutcome :=
  if returnBool then
    ConfirmOutcome.boolResult
      (match result with
        | none => false
        | some r => !truthy r.dismiss && truthy r.value)
  else ConfirmOutcome.rawResult result

/-- The settled result of the `promptAreYouSureBefore` promise chain: the
handler contains no `throw`, so the chain always fulfills (never rejects). -/
def promptAreYouSureBeforeResult (returnBool : Bool) (result : Option SwalResult) :
    Except String ConfirmOutcome :=
  Except.ok (promptAreYouSureBeforeHandler returnBool result)

/-- The `.then(result => ...)` handler of `getPromptedUserInput`
(src/index.js lines 170-177): `if (result.dismiss || !result.value) throw
new Error('stop-execution'); return result.value;`.  The thrown sentinel is
modelled by `Except.error` carrying the error message. -/
def promptThenHandler (result : SwalResult) : Except String JSVal :=
  if truthy result.dismiss || !truthy result.value then Except.error "stop-execution"
  else Except.ok result.value

/-- The `label` block template of `getInputHtmlforPrompt`
(src/index.js lines 190-196), assigned only when `input.label` is truthy. -/
def labelBlockHtml (input : InputDescriptor) : String :=
  "\n      <p class=\"marg-top-20\">\n        <label htmlFor=\""
    ++ jsToString (jsOr input.id (JSVal.str "")) ++ "\">" ++ jsToString input.label
    ++ "</label>\n      </p>\n    "

/-- The value interpolated for the local variable `label`: the block when
`input.label` is truthy, otherwise the variable stays `undefined` and the
template literal renders the text "undefined". -/
def labelHtml (input : InputDescriptor) : String :=
  if truthy input.label then labelBlockHtml input else "undefined"

/-- `const inputDisabled = input.disabled ? 'disabled' : ''` (line 187). -/
def inputDisabledAttr (input : InputDescriptor) : String :=
  if truthy input.disabled then "disabled" else ""

/-- Everything of the textarea branch template after the interpolated
`label` (src/index.js lines 199-211). -/
def textareaBodyHtml (input : InputDescriptor) : String :=
  "\n      <p>\n        <textarea\n          type=\"" ++ jsToString input.type
    ++ "\"\n          name=\"" ++ jsToString input.name
    ++ "\"\n          id=\"" ++ jsToString input.id
    ++ "\"\n          cols=\"" ++ jsToString (jsOr input.cols (JSVal.num 5))
    ++ "\"\n          rows=\"" ++ jsToString (jsOr input.rows (JSVal.num 5))
    ++ "\"\n          " ++ inputDisabledAttr input
    ++ "\n        />" ++ jsToString input.value ++ "</textarea>\n      </p>\n    "

/-- Textarea branch: leading newline/indent, interpolated `label`, body. -/
def textareaHtmlWith (label : String) (input : InputDescriptor) : String :=
  "\n      " ++ label ++ textareaBodyHtml input

/-- `'selected'` when `input.value === option.value`, else `''` (line 217). -/
def optionSelectedAttr (input : InputDescriptor) (o : SelectOption) : String :=
  if jsStrictEq input.value o.value then "selected" else ""

/-- `'disabled'` when `option.disabled` is truthy, else `''` (line 218). -/
def optionDisabledAttr (o : SelectOption) : String :=
  if truthy o.disabled then "disabled" else ""

/-- The part of one `<option>` template before the interpolated
`optionSelected` (src/index.js lines 219-221). -/
def optionOpenHtml (o : SelectOption) : String :=
  "<option\n          value=\"" ++ jsToString (jsOr o.value (JSVal.str ""))
    ++ "\"\n          "

/-- The part of one `<option>` template after the interpolated
`optionSelected` (src/index.js lines 221-225). -/
def optionTailHtml (o : SelectOption) : String :=
  "\n          " ++ optionDisabledAttr o ++ "\n        >\n          "
    ++ jsToString (jsOr o.name (jsOr o.value (JSVal.str ""))) ++ "\n        </option>"

/-- One rendered `<option>` element (src/index.js lines 216-226). -/
def renderOption (input : InputDescriptor) (o : SelectOption) : String :=
  optionOpenHtml o ++ optionSelectedAttr input o ++ optionTailHtml o

/-- Everything of the select branch template after the interpolated `label`
(src/index.js lines 228-239), with the joined option markup inside. -/
def selectBodyHtml (input : InputDescriptor) : String :=
  "\n      <p>\n        <select\n          type=\"" ++ jsToString input.type
    ++ "\"\n          name=\"" ++ jsToString input.name
    ++ "\"\n          id=\"" ++ jsToString input.id
    ++ "\"\n          value=\"" ++ jsToString input.value
    ++ "\"\n          " ++ inputDisabledAttr input
    ++ "\n        />" ++ String.join (input.options.map (renderOption input))
    ++ "</select>\n      </p>\n    "

/-- Select branch: leading newline/indent, interpolated `label`, body. -/
def selectHtmlWith (label : String) (input : InputDescriptor) : String :=
  "\n      " ++ label ++ selectBodyHtml input

/-- Everything of the default (text-like) branch template after the
interpolated `label` (src/index.js lines 242-255). -/
def textBodyHtml (input : InputDescriptor) : String :=
  "\n    <p>\n      <input\n        type=\"" ++ jsToString input.type
    ++ "\"\n        name=\"" ++ jsToString input.name
    ++ "\"\n        id=\"" ++ jsToString input.id
    ++ "\"\n        placeholder=\"" ++ jsToString input.placeholder
    ++ "\"\n        value=\"" ++ jsToString input.value
    ++ "\"\n        maxlength=\"" ++ jsToString input.maxLength
    ++ "\"\n        " ++ inputDisabledAttr input
    ++ "\n      />\n    </p>\n  "

/-- Default (text-like) branch: leading newline/indent, interpolated
`label`, body. -/
def textHtmlWith (label : String) (input : InputDescriptor) : String :=
  "\n    " ++ label ++ textBodyHtml input

/-- `getInputHtmlforPrompt(input)` (src/index.js lines 186-256): computes
the `label` value, then dispatches on `input.type === 'textarea'` /
`input.type === 'select'` / default. -/
def getInputHtmlforPrompt (input : InputDescriptor) : String :=
  let label := labelHtml input
  if jsStrictEq input.type (JSVal.str "textarea") then textareaHtmlWith label input
  else if jsStrictEq input.type (JSVal.str "select") then selectHtmlWith label input
  else textHtmlWith label input

/-- Modelled from the spec: a variant of the field renderer in which an
unset `label` contributes no content at all (empty string) instead of the
interpolated text "undefined".  Used to compare the code's renderer against
the spec's description of the label block. -/
def labelHtml_specEmpty (input : InputDescriptor) : String :=
  if truthy input.label then labelBlockHtml input else ""

/-- Modelled from the spec: the field renderer with the spec's
no-content-when-label-unset behavior; otherwise identical to
`getInputHtmlforPrompt`. -/
def getInputHtmlforPrompt_specLabel (input : InputDescriptor) : String :=
  let label := labelHtml_specEmpty input
  if jsStrictEq input.type (JSVal.str "textarea") then textareaHtmlWith label input
  else if jsStrictEq input.type (JSVal.str "select") then selectHtmlWith label input
  else textHtmlWith label input

/-- The filter predicate of `getPromptedUserInput` (src/index.js lines
140-143): `!!input && !!input.id && !!input.name`.  A `none` entry models a
`null`/`undefined` element of the `inputs` array. -/
def isValidEntry : Option InputDescriptor → Bool
  | some input => truthy input.id && truthy input.name
  | none => false

/-- `const validInputs = _.filter(inputs, ...)`: the entries that pass the
filter, unwrapped (a kept entry is necessarily a real descriptor). -/
def validInputsOf (inputs : List (Option InputDescriptor)) : List InputDescriptor :=
  inputs.filterMap (fun entry => if isValidEntry entry then entry else none)

/-- `const inputHtml = (html || text || '') + '<br/><br/>' + _.map(validInputs,
input => getInputHtmlforPrompt(input)).join('')` (src/index.js lines 150-153). -/
def buildInputHtml (html text : String) (validInputs : List InputDescriptor) : String :=
  (if html ≠ "" then html else if text ≠ "" then text else "") ++ "<br/><br/>"
    ++ String.join (validInputs.map getInputHtmlforPrompt)

/-- How a `getPromptedUserInput` call starts: either it returns the
immediately rejected promise (no dialog is ever opened), or it opens the
dialog with the id to focus and the assembled body markup. -/
inductive PromptStart where
  | rejected (message : String)
  | opened (firstInputId : JSVal) (inputHtml : String)
  deriving DecidableEq

/-- The synchronous part of `getPromptedUserInput` (src/index.js lines
138-161): filter the descriptors; with no valid descriptor return
`Promise.reject('No valid inputs passed to getPromptedUserInput().')`,
otherwise open the dialog with `validInputs[0].id` as the field to focus
and `inputHtml` as the body. -/
def getPromptedUserInput_start (html text : String)
    (inputs : List (Option InputDescriptor)) : PromptStart :=
  match validInputsOf inputs with
  | [] => PromptStart.rejected "No valid inputs passed to getPromptedUserInput()."
  | first :: rest =>
      PromptStart.opened first.id (buildInputHtml html text (first :: rest))

/-- One iteration of the validation loop of `getResultsAfterValidations`
(src/index.js lines 270-278): look the rule's target up by id; if absent
push the generated message, else push `messageOnFail` when `validate`
returns a falsy value. -/
def valStep (dom : String → Option DomElement) (errors : List String)
    (validation : ValidationRule) : List String :=
  match dom (jsToString validation.id) with
  | none =>
      errors ++ ["Field " ++ jsToString (jsOr validation.name (JSVal.str ""))
        ++ " must not be empty.\r\n"]
  | some el =>
      if truthy (validation.validate el) then errors
      else errors ++ [validation.messageOnFail]

/-- The full validation loop: the recorded messages, in rule order. -/
def runValidations (dom : String → Option DomElement)
    (validations : List ValidationRule) : List String :=
  validations.foldl (valStep dom) []

/-- The message a single rule contributes, if any. -/
def valMsg (dom : String → Option DomElement) (validation : ValidationRule) :
    Option String :=
  match dom (jsToString validation.id) with
  | none =>
      some ("Field " ++ jsToString (jsOr validation.name (JSVal.str ""))
        ++ " must not be empty.\r\n")
  | some el =>
      if truthy (validation.validate el) then none else some validation.messageOnFail

/-- One iteration of the aggregation loop (src/index.js lines 285-292) over
the ORIGINAL `inputs` array: a `null` entry or a missing DOM element makes
the loop throw a `TypeError` (modelled by `none`); otherwise the element's
string value — transformed by `formatValue` when a function was supplied —
is appended under the key `input.fieldName || input.name`. -/
def aggStep (dom : String → Option DomElement) (acc : Option (List (String × JSVal)))
    (entry : Option InputDescriptor) : Option (List (String × JSVal)) :=
  match acc with
  | none => none
  | some returnData =>
      match entry with
      | none => none
      | some input =>
          match dom (jsToString input.id) with
          | none => none
          | some domInput =>
              let inputValue :=
                match input.formatValue with
                | some f => f (JSVal.str domInput.value)
                | none => JSVal.str domInput.value
              some (returnData
                ++ [(jsToString (jsOr input.fieldName input.name), inputValue)])

/-- The aggregation loop `inputs.map(input => ... returnData[...] = ...)`
run to completion; `none` models the loop throwing. The produced object is
modelled as the list of key/value assignments in iteration order. -/
def aggregateInputs (dom : String → Option DomElement)
    (inputs : List (Option InputDescriptor)) : Option (List (String × JSVal)) :=
  inputs.foldl (aggStep dom) (some [])

/-- Outcome of the pre-confirmation hook on one confirmation attempt. -/
inductive PreConfirmOutcome where
  | blocked (errorsString : String)
  | resolved (returnData : List (String × JSVal))
  | crashed
  deriving DecidableEq

/-- The pre-confirmation hook built by `getResultsAfterValidations`
(src/index.js lines 265-295), evaluated on one confirmation attempt against
the live DOM: run the validations; if any message was recorded, show the
joined messages as the dialog's validation error and leave the dialog open
(`blocked`); otherwise aggregate the live field values over the `inputs`
list the hook was given.  Note that `getPromptedUserInput` passes the
UNFILTERED `inputs` array to this hook (src/index.js lines 166-169). -/
def getResultsAfterValidations (dom : String → Option DomElement)
    (validations : List ValidationRule) (inputs : List (Option InputDescriptor)) :
    PreConfirmOutcome :=
  let errors := runValidations dom validations
  if errors.length ≠ 0 then PreConfirmOutcome.blocked (String.join errors)
  else
    match aggregateInputs dom inputs with
    | some returnData => PreConfirmOutcome.resolved returnData
    | none => PreConfirmOutcome.crashed

/-- Modelled from the spec: the pre-confirmation hook as §4.5 describes it,
aggregating over only the retained (filtered-valid) descriptors — "for
every retained descriptor read its live field value".  Identical to
`getResultsAfterValidations` except for the aggregated list. -/
def getResultsAfterValidations_spec (dom : String → Option DomElement)
    (validations : List ValidationRule) (inputs : List (Option InputDescriptor)) :
    PreConfirmOutcome :=
  let errors := runValidations dom validations
  if errors.length ≠ 0 then PreConfirmOutcome.blocked (String.join errors)
  else
    match aggregateInputs dom ((validInputsOf inputs).map Option.some) with
    | some returnData => PreConfirmOutcome.resolved returnData
    | none => PreConfirmOutcome.crashed

/-- A DOM holding exactly the rendered field `a` with live value "x". -/
def domC1 : String → Option DomElement :=
  fun s => if s = "a" then some { value := "x" } else none

/-- A DOM holding exactly the rendered field `a` with live value "42". -/
def domC1n : String → Option DomElement :=
  fun s => if s = "a" then some { value := "42" } else none

/-- A passing validation rule on field `a`: its value must be nonempty. -/
def validationC1 : ValidationRule :=
  { id := JSVal.str "a", name := JSVal.str "a",
    validate := fun el => JSVal.bool (el.value.length != 0),
    messageOnFail := "required" }

/-- A descriptor list with one valid entry (`a`) and one invalid entry
(`b`, which lacks a `name`, so it is filtered out and never rendered). -/
def inputsC1 : List (Option InputDescriptor) :=
  [some { id := JSVal.str "a", name := JSVal.str "a" },
    some { id := JSVal.str "b" }]

/-- A single valid descriptor whose `formatValue` is the `Number` builtin. -/
def inputsC1n : List (Option InputDescriptor) :=
  [some { id := JSVal.str "a", name := JSVal.str "a", formatValue := some jsNumber }]

/-- A text-like descriptor with no `label` set. -/
def inputC7 : InputDescriptor :=
  { id := JSVal.str "i", name := JSVal.str "n", type := JSVal.str "text" }

/-! Helper lemmas. -/

/-- String concatenation is associative. -/
theorem string_append_assoc (a b c : String) : a ++ b ++ c = a ++ (b ++ c) := by
  rcases a with ⟨la⟩
  rcases b with ⟨lb⟩
  rcases c with ⟨lc⟩
  show String.mk ((la ++ lb) ++ lc) = String.mk (la ++ (lb ++ lc))
  rw [List.append_assoc]

/-- Strict equality holds exactly on equal non-NaN values of `JSVal`. -/
theorem jsStrictEq_eq_true_iff (a b : JSVal) :
    jsStrictEq a b = true ↔ a = b ∧ a ≠ JSVal.nan := by
  cases a <;> cases b <;> simp [jsStrictEq]

/-- A list none of whose entries passes the filter retains nothing. -/
theorem validInputsOf_eq_nil (inputs : List (Option InputDescriptor))
    (h : inputs.any isValidEntry = false) : validInputsOf inputs = [] := by
  induction inputs with
  | nil => rfl
  | cons e rest ih =>
      rw [List.any_cons, Bool.or_eq_false_iff] at h
      unfold validInputsOf at ih ⊢
      rw [List.filterMap_cons, h.1]
      simpa using ih h.2

/-- Rendering the retained descriptors is the in-order collection of one
block per valid entry, with invalid entries contributing nothing. -/
theorem validInputsOf_map_render (inputs : List (Option InputDescriptor)) :
    (validInputsOf inputs).map getInputHtmlforPrompt =
      inputs.filterMap (fun entry =>
        if isValidEntry entry then Option.map getInputHtmlforPrompt entry else none) := by
  unfold validInputsOf
  rw [List.map_filterMap]
  congr 1
  funext entry
  by_cases h : isValidEntry entry = true <;> simp [h]

/-- Unrolling the validation loop: the accumulated messages are the in-order
collection of each rule's contribution. -/
theorem foldl_valStep (dom : String → Option DomElement)
    (validations : List ValidationRule) (acc : List String) :
    validations.foldl (valStep dom) acc = acc ++ validations.filterMap (valMsg dom) := by
  induction validations generalizing acc with
  | nil => simp
  | cons v rest ih =>
      rw [List.foldl_cons, ih, List.filterMap_cons]
      cases hd : dom (jsToString v.id) with
      | none => simp [valStep, valMsg, hd]
      | some el =>
          by_cases hval : truthy (v.validate el) = true <;>
            simp [valStep, valMsg, hd, hval]

/-! Claim theorems. -/

/-- C9: `hideDismissableLoadingNotice` resolves with exactly the payload it
was given, unchanged, after closing any open overlay. -/
theorem c9_hide_resolves_with_payload (st : SwalState) (data : JSVal) :
    (hideDismissableLoadingNotice st data).2 = data
      ∧ ((hideDismissableLoadingNotice st data).1).openDialog = false :=
  ⟨rfl, rfl⟩

/-- C2: when no entry of the descriptor list has both a truthy `id` and a
truthy `name`, `getPromptedUserInput` returns the immediately rejected
promise carrying the "no valid inputs" description string, and never opens
a dialog. -/
theorem c2_no_valid_inputs_rejects (html text : String)
    (inputs : List (Option InputDescriptor))
    (h : inputs.any isValidEntry = false) :
    getPromptedUserInput_start html text inputs =
        PromptStart.rejected "No valid inputs passed to getPromptedUserInput()."
      ∧ ∀ fid markup,
          getPromptedUserInput_start html text inputs ≠ PromptStart.opened fid markup := by
  have hnil := validInputsOf_eq_nil inputs h
  constructor
  · unfold getPromptedUserInput_start
    rw [hnil]
  · intro fid markup hcontra
    unfold getPromptedUserInput_start at hcontra
    rw [hnil] at hcontra
    exact PromptStart.noConfusion hcontra

/-- C2 witness: the theorem applied to a concrete list whose entries are a
null element, an entry with only an `id`, and an entry with only a `name`. -/
theorem c2_no_valid_inputs_rejects_witness :
    getPromptedUserInput_start "" "" [none, some { id := JSVal.str "x" },
        some { name := JSVal.str "y" }] =
      PromptStart.rejected "No valid inputs passed to getPromptedUserInput()." :=
  (c2_no_valid_inputs_rejects "" ""
      [none, some { id := JSVal.str "x" }, some { name := JSVal.str "y" }]
      (by decide)).1

/-- C3: with `returnBool` set, `promptAreYouSureBefore` resolves `true`
exactly when the outcome is non-null with a falsy `dismiss` field and a
truthy `value` field; every dismissal resolves `false`; with `returnBool`
unset the raw outcome is passed through unchanged. -/
theorem c3_returnBool_semantics (r : SwalResult) :
    (promptAreYouSureBeforeHandler true (some r) = ConfirmOutcome.boolResult true ↔
        truthy r.dismiss = false ∧ truthy r.value = true)
      ∧ promptAreYouSureBeforeHandler true none = ConfirmOutcome.boolResult false
      ∧ (truthy r.dismiss = true →
          promptAreYouSureBeforeHandler true (some r) = ConfirmOutcome.boolResult false)
      ∧ promptAreYouSureBeforeHandler false (some r) = ConfirmOutcome.rawResult (some r)
      ∧ promptAreYouSureBeforeHandler false none = ConfirmOutcome.rawResult none := by
  refine ⟨?_, rfl, ?_, rfl, rfl⟩
  · cases hd : truthy r.dismiss <;> cases hv : truthy r.value <;>
      simp [promptAreYouSureBeforeHandler, hd, hv]
  · intro hd
    simp [promptAreYouSureBeforeHandler, hd]

/-- C3 witness: a close-button dismissal (`dismiss: 'close'`, no value)
resolves `false` under `returnBool`. -/
theorem c3_returnBool_semantics_witness :
    promptAreYouSureBeforeHandler true
        (some { dismiss := JSVal.str "close", value := JSVal.undef }) =
      ConfirmOutcome.boolResult false :=
  (c3_returnBool_semantics
      { dismiss := JSVal.str "close", value := JSVal.undef }).2.2.1 (by decide)

/-- C4: on an outcome whose `dismiss` is truthy or whose `value` is falsy,
`getPromptedUserInput`'s result handler rejects with the sentinel
"stop-execution" error (the spec's "execution halted" marker); on a
confirmed outcome with a truthy value it resolves with that value; and the
`promptAreYouSureBefore` chain never rejects. -/
theorem c4_dismissal_rejects_input_prompt_only (result : SwalResult) (b : Bool)
    (r : Option SwalResult) :
    (truthy result.dismiss = true ∨ truthy result.value = false →
        promptThenHandler result = Except.error "stop-execution")
      ∧ (truthy result.dismiss = false → truthy result.value = true →
        promptThenHandler result = Except.ok result.value)
      ∧ ∀ e : String, promptAreYouSureBeforeResult b r ≠ Except.error e := by
  refine ⟨?_, ?_, ?_⟩
  · intro h
    rcases h with h | h <;> simp [promptThenHandler, h]
  · intro hd hv
    simp [promptThenHandler, hd, hv]
  · intro e hcontra
    unfold promptAreYouSureBeforeResult at hcontra
    exact Except.noConfusion hcontra

/-- C4 witness: a concrete cancel dismissal makes the input-prompt handler
reject with the sentinel error. -/
theorem c4_dismissal_rejects_input_prompt_only_witness :
    promptThenHandler { dismiss := JSVal.str "cancel", value := JSVal.undef } =
      Except.error "stop-execution" :=
  (c4_dismissal_rejects_input_prompt_only
      { dismiss := JSVal.str "cancel", value := JSVal.undef } true none).1
    (Or.inl (by decide))

/-- C5: with at least one valid descriptor retained, `getPromptedUserInput`
opens the dialog, focusing the first retained descriptor's id, with a body
that is the optional lead-in html/text followed by the concatenation of
exactly one field block per valid descriptor in original list order, every
invalid entry contributing no block. -/
theorem c5_markup_one_block_per_valid_input (html text : String)
    (inputs : List (Option InputDescriptor))
    (first : InputDescriptor) (rest : List InputDescriptor)
    (h : validInputsOf inputs = first :: rest) :
    getPromptedUserInput_start html text inputs =
        PromptStart.opened first.id
          ((if html ≠ "" then html else if text ≠ "" then text else "")
            ++ "<br/><br/>"
            ++ String.join ((validInputsOf inputs).map getInputHtmlforPrompt))
      ∧ (validInputsOf inputs).map getInputHtmlforPrompt =
          inputs.filterMap (fun entry =>
            if isValidEntry entry then Option.map getInputHtmlforPrompt entry
            else none) := by
  constructor
  · unfold getPromptedUserInput_start buildInputHtml
    rw [h]
  · exact validInputsOf_map_render inputs

/-- C5 witness: one valid and one invalid descriptor; the dialog opens on
the valid descriptor's id with the lead-in text followed by its block. -/
theorem c5_markup_one_block_per_valid_input_witness :
    getPromptedUserInput_start "Lead" ""
        [some { id := JSVal.str "a", name := JSVal.str "a" },
          some { id := JSVal.str "b" }] =
      PromptStart.opened (JSVal.str "a")
        ("Lead" ++ "<br/><br/>"
          ++ String.join ((validInputsOf
              [some { id := JSVal.str "a", name := JSVal.str "a" },
                some { id := JSVal.str "b" }]).map getInputHtmlforPrompt)) := by
  have h := (c5_markup_one_block_per_valid_input "Lead" ""
      [some { id := JSVal.str "a", name := JSVal.str "a" },
        some { id := JSVal.str "b" }]
      { id := JSVal.str "a", name := JSVal.str "a" } [] rfl).1
  simpa using h

/-- C6: for a `select` descriptor the rendered markup embeds one option
element per entry of `options`, in order; an option's selected-attribute
slot is the text "selected" exactly when the option's `value` strictly
equals the descriptor's `value` (equal non-NaN values), and is empty
otherwise, so with no matching option nothing is marked selected. -/
theorem c6_select_selected_iff_value_matches (input : InputDescriptor)
    (o : SelectOption) (hty : input.type = JSVal.str "select") :
    getInputHtmlforPrompt input =
        "\n      " ++ labelHtml input
          ++ ("\n      <p>\n        <select\n          type=\"" ++ jsToString input.type
          ++ "\"\n          name=\"" ++ jsToString input.name
          ++ "\"\n          id=\"" ++ jsToString input.id
          ++ "\"\n          value=\"" ++ jsToString input.value
          ++ "\"\n          " ++ inputDisabledAttr input
          ++ "\n        />" ++ String.join (input.options.map (renderOption input))
          ++ "</select>\n      </p>\n    ")
      ∧ (input.options.map (renderOption input)).length = input.options.length
      ∧ renderOption input o =
          optionOpenHtml o ++ optionSelectedAttr input o ++ optionTailHtml o
      ∧ (optionSelectedAttr input o = "selected" ↔
          input.value = o.value ∧ input.value ≠ JSVal.nan)
      ∧ (¬(input.value = o.value ∧ input.value ≠ JSVal.nan) →
          optionSelectedAttr input o = "") := by
  refine ⟨?_, by simp, rfl, ?_, ?_⟩
  · unfold getInputHtmlforPrompt selectHtmlWith selectBodyHtml
    rw [hty]
    rfl
  · constructor
    · intro hsel
      cases hq : jsStrictEq input.value o.value with
      | true => exact (jsStrictEq_eq_true_iff input.value o.value).mp hq
      | false =>
          unfold optionSelectedAttr at hsel
          rw [hq] at hsel
          simp at hsel
    · intro hand
      have hq : jsStrictEq input.value o.value = true :=
        (jsStrictEq_eq_true_iff input.value o.value).mpr hand
      simp [optionSelectedAttr, hq]
  · intro hne
    cases hq : jsStrictEq input.value o.value with
    | true => exact absurd ((jsStrictEq_eq_true_iff input.value o.value).mp hq) hne
    | false => simp [optionSelectedAttr, hq]

/-- C6 witness: a select descriptor with value `'b'` marks its `'b'` option
selected and leaves its `'a'` option unselected. -/
theorem c6_select_selected_iff_value_matches_witness :
    optionSelectedAttr
        { id := JSVal.str "s", name := JSVal.str "s", type := JSVal.str "select",
          value := JSVal.str "b",
          options := [{ value := JSVal.str "a" }, { value := JSVal.str "b" }] }
        { value := JSVal.str "b" } = "selected"
      ∧ optionSelectedAttr
        { id := JSVal.str "s", name := JSVal.str "s", type := JSVal.str "select",
          value := JSVal.str "b",
          options := [{ value := JSVal.str "a" }, { value := JSVal.str "b" }] }
        { value := JSVal.str "a" } = "" := by
  constructor
  · exact ((c6_select_selected_iff_value_matches _ { value := JSVal.str "b" }
      rfl).2.2.2.1).mpr (by decide)
  · exact (c6_select_selected_iff_value_matches _ { value := JSVal.str "a" }
      rfl).2.2.2.2 (by decide)

/-- C8: on each confirmation attempt the validator processes the rules in
list order — a rule whose target id is absent from the DOM contributes the
generated "Field <name> must not be empty." message and a rule whose
`validate` returns a falsy value contributes its `messageOnFail` — and when
any message was recorded the hook surfaces the joined messages as the
in-dialog validation error and does not produce an aggregated result. -/
theorem c8_validation_failure_blocks_dialog (dom : String → Option DomElement)
    (validations : List ValidationRule) (inputs : List (Option InputDescriptor)) :
    runValidations dom validations = validations.filterMap (valMsg dom)
      ∧ (runValidations dom validations ≠ [] →
          getResultsAfterValidations dom validations inputs =
              PreConfirmOutcome.blocked (String.join (runValidations dom validations))
            ∧ ∀ returnData, getResultsAfterValidations dom validations inputs ≠
                PreConfirmOutcome.resolved returnData) := by
  refine ⟨foldl_valStep dom validations [], ?_⟩
  intro hne
  have hlen : (runValidations dom validations).length ≠ 0 := by
    intro h0
    exact hne (List.length_eq_zero.mp h0)
  constructor
  · simp only [getResultsAfterValidations]
    rw [if_pos hlen]
  · intro returnData hcontra
    simp only [getResultsAfterValidations] at hcontra
    rw [if_pos hlen] at hcontra
    exact PreConfirmOutcome.noConfusion hcontra

/-- C8 witness: the spec's example — one rule on field `a` requiring a
nonempty value, the DOM element `a` empty — yields the single surfaced
message "required" and no aggregated result. -/
theorem c8_validation_failure_blocks_dialog_witness :
    getResultsAfterValidations
        (fun s => if s = "a" then some { value := "" } else none)
        [{ id := JSVal.str "a", name := JSVal.str "a",
            validate := fun el => JSVal.bool (el.value.length != 0),
            messageOnFail := "required" }] [] =
      PreConfirmOutcome.blocked "required" := by
  have h := ((c8_validation_failure_blocks_dialog
      (fun s => if s = "a" then some { value := "" } else none)
      [{ id := JSVal.str "a", name := JSVal.str "a",
          validate := fun el => JSVal.bool (el.value.length != 0),
          messageOnFail := "required" }] []).2 (by decide)).1
  rw [h]
  decide

/-- C1: evaluation at the failing input — `getPromptedUserInput` hands the
UNFILTERED `inputs` array to the pre-confirmation hook (src/index.js lines
166-169), so with every validator passing and an invalid (filtered-out,
hence unrendered) descriptor present, the aggregation loop dereferences a
missing DOM element and throws instead of resolving, while the
spec-modelled hook that iterates only the retained descriptors resolves
with the aggregated object; with only valid descriptors the code does
resolve, and a functional `formatValue` of `Number` on live value '42'
yields the number 42. -/
theorem c1_hook_iterates_unfiltered_inputs :
    getResultsAfterValidations domC1 [validationC1] inputsC1 = PreConfirmOutcome.crashed
      ∧ getResultsAfterValidations_spec domC1 [validationC1] inputsC1 =
          PreConfirmOutcome.resolved [("a", JSVal.str "x")]
      ∧ (PreConfirmOutcome.crashed : PreConfirmOutcome) ≠
          PreConfirmOutcome.resolved [("a", JSVal.str "x")]
      ∧ getResultsAfterValidations domC1n [validationC1] inputsC1n =
          PreConfirmOutcome.resolved [("a", JSVal.num 42)] := by
  refine ⟨by decide, by decide, by decide, by decide⟩

/-- C7 counterexample: for a text descriptor with no `label`, the rendered
markup is NOT the label-free markup the spec describes — the uninitialized
`label` variable is interpolated, so the literal text "undefined" occupies
the label slot at the start of the markup. -/
theorem c7_label_unset_yields_undefined_text :
    getInputHtmlforPrompt inputC7 ≠ getInputHtmlforPrompt_specLabel inputC7
      ∧ List.isPrefixOf "\n    undefined\n    <p>".data
          (getInputHtmlforPrompt inputC7).data = true := by
  decide

/-- C7 amended: in each of the three branches the renderer prepends the
interpolated `label` right after the branch's leading indent; the label
slot holds the label block exactly when the descriptor's `label` is set,
and otherwise holds the literal text "undefined" rather than no content. -/
theorem c7_label_block_iff_label_set (input : InputDescriptor) :
    (jsStrictEq input.type (JSVal.str "textarea") = true →
        getInputHtmlforPrompt input =
          "\n      " ++ labelHtml input ++ textareaBodyHtml input)
      ∧ (jsStrictEq input.type (JSVal.str "textarea") = false →
          jsStrictEq input.type (JSVal.str "select") = true →
          getInputHtmlforPrompt input =
            "\n      " ++ labelHtml input ++ selectBodyHtml input)
      ∧ (jsStrictEq input.type (JSVal.str "textarea") = false →
          jsStrictEq input.type (JSVal.str "select") = false →
          getInputHtmlforPrompt input =
            "\n    " ++ labelHtml input ++ textBodyHtml input)
      ∧ (truthy input.label = true → labelHtml input = labelBlockHtml input)
      ∧ (truthy input.label = false → labelHtml input = "undefined") := by
  refine ⟨?_, ?_, ?_, ?_, ?_⟩
  · intro h1
    simp [getInputHtmlforPrompt, h1, textareaHtmlWith]
  · intro h1 h2
    simp [getInputHtmlforPrompt, h1, h2, selectHtmlWith]
  · intro h1 h2
    simp [getInputHtmlforPrompt, h1, h2, textHtmlWith]
  · intro hl
    simp [labelHtml, hl]
  · intro hl
    simp [labelHtml, hl]

/-- C7 amended witness: an unlabeled text descriptor renders with the
literal "undefined" in the label slot. -/
theorem c7_label_block_iff_label_set_witness :
    getInputHtmlforPrompt inputC7 = "\n    " ++ labelHtml inputC7 ++ textBodyHtml inputC7
      ∧ labelHtml inputC7 = "undefined" :=
  ⟨(c7_label_block_iff_label_set inputC7).2.2.1 (by decide) (by decide),
    (c7_label_block_iff_label_set inputC7).2.2.2.2 (by decide)⟩

/-- C10: for a text-like descriptor (type neither 'textarea' nor 'select')
in which `placeholder`, `value`, or `maxLength` is unset, the renderer
interpolates the missing property verbatim, so the markup carries the
literal text "undefined" inside the corresponding placeholder, value, or
maxlength attribute instead of omitting or emptying it. -/
theorem c10_text_like_interpolates_undefined (input : InputDescriptor)
    (h1 : jsStrictEq input.type (JSVal.str "textarea") = false)
    (h2 : jsStrictEq input.type (JSVal.str "select") = false) :
    (input.placeholder = JSVal.undef →
        getInputHtmlforPrompt input =
          "\n    " ++ labelHtml input
            ++ ("\n    <p>\n      <input\n        type=\"" ++ jsToString input.type
            ++ "\"\n        name=\"" ++ jsToString input.name
            ++ "\"\n        id=\"" ++ jsToString input.id
            ++ "\"\n        placeholder=\"" ++ "undefined"
            ++ "\"\n        value=\"" ++ jsToString input.value
            ++ "\"\n        maxlength=\"" ++ jsToString input.maxLength
            ++ "\"\n        " ++ inputDisabledAttr input
            ++ "\n      />\n    </p>\n  "))
      ∧ (input.value = JSVal.undef →
        getInputHtmlforPrompt input =
          "\n    " ++ labelHtml input
            ++ ("\n    <p>\n      <input\n        type=\"" ++ jsToString input.type
            ++ "\"\n        name=\"" ++ jsToString input.name
            ++ "\"\n        id=\"" ++ jsToString input.id
            ++ "\"\n        placeholder=\"" ++ jsToString input.placeholder
            ++ "\"\n        value=\"" ++ "undefined"
            ++ "\"\n        maxlength=\"" ++ jsToString input.maxLength
            ++ "\"\n        " ++ inputDisabledAttr input
            ++ "\n      />\n    </p>\n  "))
      ∧ (input.maxLength = JSVal.undef →
        getInputHtmlforPrompt input =
          "\n    " ++ labelHtml input
            ++ ("\n    <p>\n      <input\n        type=\"" ++ jsToString input.type
            ++ "\"\n        name=\"" ++ jsToString input.name
            ++ "\"\n        id=\"" ++ jsToString input.id
            ++ "\"\n        placeholder=\"" ++ jsToString input.placeholder
            ++ "\"\n        value=\"" ++ jsToString input.value
            ++ "\"\n        maxlength=\"" ++ "undefined"
            ++ "\"\n        " ++ inputDisabledAttr input
            ++ "\n      />\n    </p>\n  ")) := by
  refine ⟨?_, ?_, ?_⟩
  · intro hp
    unfold getInputHtmlforPrompt textHtmlWith textBodyHtml
    rw [h1, h2, hp]
    rfl
  · intro hv
    unfold getInputHtmlforPrompt textHtmlWith textBodyHtml
    rw [h1, h2, hv]
    rfl
  · intro hm
    unfold getInputHtmlforPrompt textHtmlWith textBodyHtml
    rw [h1, h2, hm]
    rfl

/-- C10 witness: the theorem applied to a concrete text descriptor with
only `placeholder` unset (its `value` and `maxLength` are set): the
placeholder attribute carries the literal "undefined" while the set
properties are interpolated as given. -/
theorem c10_text_like_interpolates_undefined_witness :
    getInputHtmlforPrompt
        { id := JSVal.str "i", name := JSVal.str "n", type := JSVal.str "text",
          value := JSVal.str "v", maxLength := JSVal.num 10 } =
      "\n    "
        ++ labelHtml
          { id := JSVal.str "i", name := JSVal.str "n", type := JSVal.str "text",
            value := JSVal.str "v", maxLength := JSVal.num 10 }
        ++ ("\n    <p>\n      <input\n        type=\"" ++ jsToString (JSVal.str "text")
        ++ "\"\n        name=\"" ++ jsToString (JSVal.str "n")
        ++ "\"\n        id=\"" ++ jsToString (JSVal.str "i")
        ++ "\"\n        placeholder=\"" ++ "undefined"
        ++ "\"\n        value=\"" ++ jsToString (JSVal.str "v")
        ++ "\"\n        maxlength=\"" ++ jsToString (JSVal.num 10)
        ++ "\"\n        "
        ++ inputDisabledAttr
          { id := JSVal.str "i", name := JSVal.str "n", type := JSVal.str "text",
            value := JSVal.str "v", maxLength := JSVal.num 10 }
        ++ "\n      />\n    </p>\n  ") :=
  (c10_text_like_interpolates_undefined
      { id := JSVal.str "i", name := JSVal.str "n", type := JSVal.str "text",
        value := JSVal.str "v", maxLength := JSVal.num 10 }
      (by decide) (by decide)).1 rfl
